import Mathlib

/-!
Verification of the mcp-ext-apps protocol core: a shallow embedding of the
PostMessageTransport, the AppBridge (Host endpoint), the App (Guest endpoint)
handshake, and the sandbox proxy frame, together with theorems settling the
specification claims about them.
-/

namespace ExtApps

/-- Structured message data exchanged via postMessage, modelling the
structured-clone values carried by browser message events (JSON subset). -/
inductive Json where
  | null
  | bool (b : Bool)
  | num (n : Int)
  | str (s : String)
  | arr (elems : List Json)
  | obj (fields : List (String × Json))

/-- First-match association-list lookup, modelling JavaScript property access
on a plain object. -/
def lookupField : List (String × Json) → String → Option Json
  | [], _ => none
  | (k, v) :: rest, key => if k = key then some v else lookupField rest key

/-- JavaScript property access `value.key`: a field of an object, `undefined`
(here `none`) otherwise. -/
def Json.getField : Json → String → Option Json
  | .obj fields, key => lookupField fields key
  | _, _ => none

/-- JavaScript truthiness of a structured value. -/
def Json.truthy : Json → Bool
  | .null => false
  | .bool b => b
  | .num n => decide (n ≠ 0)
  | .str s => decide (s ≠ "")
  | .arr _ => true
  | .obj _ => true

/-- All keys of the object are among the allowed ones (a zod `strict` object
rejects unknown keys). -/
def keysAmong (fields : List (String × Json)) (allowed : List String) : Bool :=
  fields.all (fun kv => allowed.contains kv.1)

/-- The field holds the given string literal. -/
def fieldIsStr (fields : List (String × Json)) (key val : String) : Bool :=
  match lookupField fields key with
  | some (.str s) => s == val
  | _ => false

/-- The field holds some string. -/
def fieldIsString (fields : List (String × Json)) (key : String) : Bool :=
  match lookupField fields key with
  | some (.str _) => true
  | _ => false

/-- The field holds a valid JSON-RPC request id (string or integer). -/
def fieldIsId (fields : List (String × Json)) (key : String) : Bool :=
  match lookupField fields key with
  | some (.str _) => true
  | some (.num _) => true
  | _ => false

/-- The field is absent or holds an object (optional `params` object). -/
def fieldIsObjOrAbsent (fields : List (String × Json)) (key : String) : Bool :=
  match lookupField fields key with
  | some (.obj _) => true
  | none => true
  | _ => false

/-- The field holds an object. -/
def fieldIsObj (fields : List (String × Json)) (key : String) : Bool :=
  match lookupField fields key with
  | some (.obj _) => true
  | _ => false

/-- Valid JSON-RPC request shape: strict keys, `jsonrpc` marker, string or
integer id, string method, optional object params. Modelled on the MCP SDK's
`JSONRPCRequestSchema` (external dependency of the transport). -/
def isJSONRPCRequest : Json → Bool
  | .obj fields =>
      keysAmong fields ["jsonrpc", "id", "method", "params"] &&
      fieldIsStr fields "jsonrpc" "2.0" &&
      fieldIsId fields "id" &&
      fieldIsString fields "method" &&
      fieldIsObjOrAbsent fields "params"
  | _ => false

/-- Valid JSON-RPC notification shape: like a request but with no id.
Modelled on the MCP SDK's `JSONRPCNotificationSchema`. -/
def isJSONRPCNotification : Json → Bool
  | .obj fields =>
      keysAmong fields ["jsonrpc", "method", "params"] &&
      fieldIsStr fields "jsonrpc" "2.0" &&
      fieldIsString fields "method" &&
      fieldIsObjOrAbsent fields "params"
  | _ => false

/-- Valid JSON-RPC success response shape. Modelled on the MCP SDK's
`JSONRPCResponseSchema` (the `result` must be an object). -/
def isJSONRPCResponse : Json → Bool
  | .obj fields =>
      keysAmong fields ["jsonrpc", "id", "result"] &&
      fieldIsStr fields "jsonrpc" "2.0" &&
      fieldIsId fields "id" &&
      fieldIsObj fields "result"
  | _ => false

/-- Valid JSON-RPC error response shape: an `error` object with integer
`code` and string `message`. Modelled on the MCP SDK's `JSONRPCErrorSchema`. -/
def isJSONRPCError : Json → Bool
  | .obj fields =>
      keysAmong fields ["jsonrpc", "id", "error"] &&
      fieldIsStr fields "jsonrpc" "2.0" &&
      fieldIsId fields "id" &&
      (match lookupField fields "error" with
       | some (.obj errFields) =>
           (match lookupField errFields "code" with
            | some (.num _) => true
            | _ => false) &&
           fieldIsString errFields "message"
       | _ => false)
  | _ => false

/-- `JSONRPCMessageSchema.safeParse` succeeds: the value matches one of the
four JSON-RPC message shapes. -/
def isJSONRPCMessage (j : Json) : Bool :=
  isJSONRPCRequest j || isJSONRPCNotification j || isJSONRPCResponse j || isJSONRPCError j

/-- What the PostMessageTransport's window message listener does with one
inbound message event (src/src/react/useApp.tsx, constructor listener). -/
inductive ListenerAction where
  | droppedUnknownSource
  | delivered (msg : Json)
  | reportedInvalid

/-- The PostMessageTransport constructor's message listener, as a total
function over one inbound event: drop events whose source does not match the
configured `eventSource` (when one was given), then validate the payload,
delivering valid messages to `onmessage` and reporting invalid ones through
`onerror`. Totality models that the listener never throws into its caller. -/
def handleWindowMessage {W : Type} [DecidableEq W]
    (eventSource : Option W) (source : Option W) (data : Json) : ListenerAction :=
  if (match eventSource with
      | some s => decide (source ≠ some s)
      | none => false) then
    .droppedUnknownSource
  else if isJSONRPCMessage data then
    .delivered data
  else
    .reportedInvalid

/-- A message posted to a window, with its target-origin argument. -/
structure PostedMessage (W : Type) where
  target : W
  data : Json
  targetOrigin : String

namespace PostMessageTransport

/-- `PostMessageTransport.send`: posts the message to the configured target
window with the wildcard target origin. -/
def send {W : Type} (eventTarget : W) (message : Json) : PostedMessage W :=
  { target := eventTarget, data := message, targetOrigin := "*" }

end PostMessageTransport

/-! ## Sandbox proxy frame (examples/simple-host/src/sandbox.ts) -/

/-- The first list is a prefix of the second. -/
def charListLeads : List Char → List Char → Bool
  | [], _ => true
  | _ :: _, [] => false
  | c :: cs, d :: ds => c == d && charListLeads cs ds

/-- One allowed-host alternative of the referrer allow-list regex
`^http:\/\/(localhost|127\.0\.0\.1)(:|\/|$)`: the referrer starts with
`http://` followed by the host, and the host is followed by `:`, `/`, or the
end of the string. -/
def referrerMatchesHost (host s : String) : Bool :=
  let p := ("http://" ++ host).data
  charListLeads p s.data &&
    (match s.data.drop p.length with
     | [] => true
     | c :: _ => c == ':' || c == '/')

/-- `document.referrer.match(/^http:\/\/(localhost|127\.0\.0\.1)(:|\/|$)/)`
succeeds. -/
def allowedReferrer (s : String) : Bool :=
  referrerMatchesHost "localhost" s || referrerMatchesHost "127.0.0.1" s

/-- Environment facts the sandbox proxy script observes when it loads. -/
structure SandboxEnv where
  /-- `window.self !== window.top`: the script runs inside an iframe. -/
  framed : Bool
  /-- `document.referrer`; the empty string when absent. -/
  referrer : String
  /-- Whether `window.top.alert(...)` raises the expected cross-origin
  SecurityError (the isolation the self-test is probing for). -/
  alertRaisesSecurityError : Bool

/-- The errors thrown by the top-level checks of sandbox.ts. -/
inductive SandboxSetupError where
  | notInIframe
  | noReferrer
  | referrerNotAllowed
deriving DecidableEq

/-- Observable effects of a completed run of the sandbox.ts top-level
script. -/
structure SandboxSetupResult where
  /-- The nested iframe was created and appended. -/
  innerCreated : Bool
  /-- The sandbox attribute placed on the nested iframe. -/
  innerSandboxAttr : String
  /-- The message relay listener was installed. -/
  relayListenerInstalled : Bool
  /-- The distinguished proxy-ready message was posted to the parent. -/
  proxyReadyPosted : Bool
  /-- The escape self-test reached the top-level window and showed its alert
  dialog (isolation is broken). -/
  alertDialogShown : Bool
deriving DecidableEq

/-- Top-level setup of the sandbox proxy (sandbox.ts), run to completion.
The escape self-test is the source's

`try { window.top.alert(...); throw new Error("Managed to break out of iframe, ...") } catch (e) { /* Ignore */ }`

Both the hoped-for SecurityError and the deliberately thrown escape-detected
Error land in the same catch clause, which ignores every exception, so setup
continues past the self-test in both cases. -/
def sandboxSetup (env : SandboxEnv) : Except SandboxSetupError SandboxSetupResult :=
  if !env.framed then
    .error .notInIframe
  else if env.referrer == "" then
    .error .noReferrer
  else if !allowedReferrer env.referrer then
    .error .referrerNotAllowed
  else
    .ok { innerCreated := true
          innerSandboxAttr := "allow-scripts allow-same-origin allow-forms"
          relayListenerInstalled := true
          proxyReadyPosted := true
          alertDialogShown := !env.alertRaisesSecurityError }

/-- Which window a message event arriving at the sandbox proxy came from. -/
inductive FrameSource where
  | parent
  | innerFrame
  | otherWindow
deriving DecidableEq

/-- A message event as seen by the sandbox proxy's relay listener. -/
structure SandboxMessageEvent where
  src : FrameSource
  data : Json

/-- Destination of a relayed post. -/
inductive RelayTarget where
  | toInner
  | toParent
deriving DecidableEq

/-- A postMessage call issued by the sandbox proxy. -/
structure SandboxPost where
  target : RelayTarget
  data : Json
  targetOrigin : String

/-- Mutable state of the sandbox proxy: the nested iframe's sandbox attribute
and injected document source. -/
structure SandboxState where
  sandboxAttr : String
  srcdoc : Option String

/-- `event.data && event.data.method === "ui/notifications/sandbox-resource-ready"`:
the distinguished HTML-injection control message test. -/
def isResourceReadyMsg (d : Json) : Bool :=
  d.truthy &&
    (match d.getField "method" with
     | some (.str m) => m == "ui/notifications/sandbox-resource-ready"
     | _ => false)

/-- One step of the sandbox proxy's relay listener for one message event.
Control messages from the parent update the nested iframe (sandbox attribute,
then srcdoc) and are not relayed; every other parent message is posted to the
nested frame verbatim; nested-frame messages are posted to the parent
verbatim; events from any other window are ignored. A control message without
a `params` object makes the source's destructuring throw inside the async
listener, which likewise changes nothing and posts nothing. -/
def relayStep (st : SandboxState) (e : SandboxMessageEvent) :
    SandboxState × List SandboxPost :=
  match e.src with
  | .parent =>
      if isResourceReadyMsg e.data then
        match e.data.getField "params" with
        | some p =>
            let st1 := match p.getField "sandbox" with
              | some (.str s) => { st with sandboxAttr := s }
              | _ => st
            let st2 := match p.getField "html" with
              | some (.str h) => { st1 with srcdoc := some h }
              | _ => st1
            (st2, [])
        | none => (st, [])
      else
        (st, [{ target := .toInner, data := e.data, targetOrigin := "*" }])
  | .innerFrame => (st, [{ target := .toParent, data := e.data, targetOrigin := "*" }])
  | .otherWindow => (st, [])

/-- The relay listener applied to a sequence of message events, collecting
every post it issues in order. -/
def relayRun : SandboxState → List SandboxMessageEvent → SandboxState × List SandboxPost
  | st, [] => (st, [])
  | st, e :: es =>
      let step := relayStep st e
      let rest := relayRun step.1 es
      (rest.1, step.2 ++ rest.2)

/-- The data of the posts directed at the nested frame, in order. -/
def postsToInner (ps : List SandboxPost) : List Json :=
  ps.filterMap (fun p =>
    match p.target with
    | .toInner => some p.data
    | .toParent => none)

/-- The data of the posts directed at the parent window, in order. -/
def postsToParent (ps : List SandboxPost) : List Json :=
  ps.filterMap (fun p =>
    match p.target with
    | .toInner => none
    | .toParent => some p.data)

/-- The posts one relay step issues, as a function of the event alone (the
relay's posting behavior does not depend on the proxy's mutable state). -/
def relayStepPosts (e : SandboxMessageEvent) : List SandboxPost :=
  match e.src with
  | .parent =>
      if isResourceReadyMsg e.data then []
      else [{ target := .toInner, data := e.data, targetOrigin := "*" }]
  | .innerFrame => [{ target := .toParent, data := e.data, targetOrigin := "*" }]
  | .otherWindow => []

/-- All posts issued while processing a sequence of events, in order. -/
def relayPostsOf : List SandboxMessageEvent → List SandboxPost
  | [] => []
  | e :: es => relayStepPosts e ++ relayPostsOf es

/-- The distinguished proxy-ready message sandbox.ts posts to the parent
right after setup. -/
def proxyReadyPost : SandboxPost :=
  { target := .toParent
    data := Json.obj
      [("jsonrpc", .str "2.0"),
       ("method", .str "ui/notifications/sandbox-proxy-ready"),
       ("params", .obj [])]
    targetOrigin := "*" }

/-! ## Initialization handshake (src/src/app-bridge.ts and the App endpoint
from examples/subway-map-server/PLAN.md) -/

/-- Endpoint identification exchanged during the handshake (MCP SDK
`Implementation`). -/
structure Implementation where
  name : String
  version : String
deriving DecidableEq

/-- Modelled from the spec: the latest protocol version token, defined in the
repository's types module (not under src/). The spec treats protocol versions
as opaque tokens and its handshake example uses the token v1, so only
equality with other tokens matters here. -/
def LATEST_PROTOCOL_VERSION : String := "v1"

/-- `export const SUPPORTED_PROTOCOL_VERSIONS = [LATEST_PROTOCOL_VERSION]`
(src/src/app-bridge.ts line 58). -/
def SUPPORTED_PROTOCOL_VERSIONS : List String := [LATEST_PROTOCOL_VERSION]

/-- Parameters of the ui/initialize request sent by the Guest. -/
structure McpUiInitializeParams where
  protocolVersion : String
  /-- The Guest's declared capability set: an object of named feature flags
  (its fields). -/
  appCapabilities : List (String × Json)
  appInfo : Implementation

/-- Result of the ui/initialize request returned by the Host. -/
structure McpUiInitializeResult where
  protocolVersion : String
  /-- The Host's capability set: an object of named feature flags (its
  fields). -/
  hostCapabilities : List (String × Json)
  hostInfo : Implementation
  hostContext : Json

namespace AppBridge

/-- `AppBridge._oninitialize` (src/src/app-bridge.ts lines 213-234): store
the Guest's capabilities, pick the requested protocol version when it is in
the allow-list and the latest known version otherwise, and return the Host's
capabilities, identity and (currently empty) host context. -/
def oninitialize (hostCapabilities : List (String × Json)) (hostInfo : Implementation)
    (request : McpUiInitializeParams) : McpUiInitializeResult :=
  let requestedVersion := request.protocolVersion
  let protocolVersion :=
    if SUPPORTED_PROTOCOL_VERSIONS.contains requestedVersion then requestedVersion
    else LATEST_PROTOCOL_VERSION
  { protocolVersion := protocolVersion
    hostCapabilities := hostCapabilities
    hostInfo := hostInfo
    hostContext := Json.obj [] }

/-- `AppBridge.assertRequestHandlerCapability` (src/src/app-bridge.ts lines
184-190): the body is a TODO comment, so the check accepts every method
whatever the Host's declared capabilities are. -/
def assertRequestHandlerCapability (_capabilities : List (String × Json))
    (_method : String) : Except String Unit :=
  .ok ()

/-- `AppBridge.assertNotificationCapability` (src/src/app-bridge.ts lines
192-198): the body is a TODO comment, so the check accepts every method. -/
def assertNotificationCapability (_capabilities : List (String × Json))
    (_method : String) : Except String Unit :=
  .ok ()

end AppBridge

/-- `Protocol.setRequestHandler` of the MCP SDK (the base class of AppBridge):
calls `assertRequestHandlerCapability(method)` and then records the handler
under its method name. -/
def bridgeSetRequestHandler (capabilities : List (String × Json))
    (registered : List String) (method : String) : Except String (List String) :=
  match AppBridge.assertRequestHandlerCapability capabilities method with
  | .error e => .error e
  | .ok _ => .ok (registered ++ [method])

/-- `Protocol.setNotificationHandler` of the MCP SDK: records the handler
under its method name with no capability check of any kind. -/
def bridgeSetNotificationHandler (registered : List String) (method : String) :
    List String :=
  registered ++ [method]

/-- Encoding of an initialize result as the JSON value the Guest's transport
receives. -/
def encodeInitializeResult (r : McpUiInitializeResult) : Json :=
  .obj
    [("protocolVersion", .str r.protocolVersion),
     ("hostCapabilities", .obj r.hostCapabilities),
     ("hostInfo", .obj
        [("name", .str r.hostInfo.name), ("version", .str r.hostInfo.version)]),
     ("hostContext", r.hostContext)]

/-- Modelled from the spec: `McpUiInitializeResultSchema` (defined in the
repository's types module, not under src/). Per the spec the initialize
result's required fields are the negotiated protocol version, the Host's
capability set (`hostCapabilities`) and the Host's identity; the host context
is an opaque optional payload. A response missing a required field fails
validation. -/
def parseInitializeResult (j : Json) : Option McpUiInitializeResult :=
  match j with
  | .obj fields =>
      match lookupField fields "protocolVersion",
            lookupField fields "hostCapabilities",
            lookupField fields "hostInfo" with
      | some (.str pv), some (.obj capFields), some (.obj infoFields) =>
          match lookupField infoFields "name", lookupField infoFields "version" with
          | some (.str n), some (.str v) =>
              some { protocolVersion := pv
                     hostCapabilities := capFields
                     hostInfo := { name := n, version := v }
                     hostContext := (lookupField fields "hostContext").getD (.obj []) }
          | _, _ => none
      | _, _, _ => none
  | _ => none

/-- Outcome of one run of `App.connect(transport)`. -/
structure ConnectOutcome where
  /-- The promise returned by connect() resolved. -/
  resolved : Bool
  /-- How many times the Guest closed its own transport. -/
  closeCalls : Nat
  /-- How many ui/initialize requests were sent (the code never retries). -/
  initializeRequestsSent : Nat
  /-- The ui/notifications/initialized acknowledgement was sent. -/
  sentInitialized : Bool
deriving DecidableEq

/-- How the Guest's single ui/initialize request came back: a
transport/protocol-level failure (transport closed, error response, timeout),
or a raw result value still to be validated against the result schema. -/
inductive InitializeOutcome where
  | failure (e : String)
  | response (j : Json)

/-- `App.connect` (examples/subway-map-server/PLAN.md): start the transport,
send one ui/initialize request validated against the result schema, store the
Host's capabilities and identity, and acknowledge with the initialized
notification; any failure inside the try block runs the catch, which closes
the Guest's own transport once (`void this.close()`) and rethrows, rejecting
the promise. -/
def appConnect (outcome : InitializeOutcome) : ConnectOutcome :=
  match outcome with
  | .failure _ =>
      { resolved := false, closeCalls := 1, initializeRequestsSent := 1
        sentInitialized := false }
  | .response j =>
      match parseInitializeResult j with
      | none =>
          { resolved := false, closeCalls := 1, initializeRequestsSent := 1
            sentInitialized := false }
      | some _ =>
          { resolved := true, closeCalls := 0, initializeRequestsSent := 1
            sentInitialized := true }

/-! ## AppBridge.connect capability forwarding (src/src/app-bridge.ts
lines 430-468) -/

/-- The `tools` server capability, with its optional listChanged flag. -/
structure ToolsCap where
  listChanged : Bool
deriving DecidableEq

/-- The `resources` server capability. -/
structure ResourcesCap where
  listChanged : Bool
deriving DecidableEq

/-- The `prompts` server capability. -/
structure PromptsCap where
  listChanged : Bool
deriving DecidableEq

/-- Server capabilities reported by the MCP client
(`client.getServerCapabilities()`), present only once the client's own
initialization with the backend has completed. -/
structure ServerCapabilities where
  tools : Option ToolsCap
  resources : Option ResourcesCap
  prompts : Option PromptsCap
deriving DecidableEq

/-- Handler and transport state of an AppBridge instance. -/
structure BridgeState where
  requestHandlers : List String
  notificationHandlers : List String
  transportStarted : Bool
deriving DecidableEq

/-- Record a forwarding request handler (`AppBridge.forwardRequest`). -/
def forwardRequest (st : BridgeState) (method : String) : BridgeState :=
  { st with requestHandlers := st.requestHandlers ++ [method] }

/-- Record a forwarding notification handler
(`AppBridge.forwardNotification`). -/
def forwardNotification (st : BridgeState) (method : String) : BridgeState :=
  { st with notificationHandlers := st.notificationHandlers ++ [method] }

/-- `AppBridge.connect(transport)`: read the client's server capabilities and
throw before doing anything else when they are unavailable; otherwise install
forwarding handlers for each capability the backend supports and finally
start the transport (`super.connect(transport)`). Returns the (possibly
thrown) result together with the bridge state it leaves behind. -/
def bridgeConnect (serverCapabilities : Option ServerCapabilities)
    (st : BridgeState) : Except String Unit × BridgeState :=
  match serverCapabilities with
  | none => (.error "Client server capabilities not available", st)
  | some caps =>
      let st := match caps.tools with
        | some t =>
            let st := forwardRequest st "tools/call"
            if t.listChanged then forwardNotification st "notifications/tools/list_changed"
            else st
        | none => st
      let st := match caps.resources with
        | some r =>
            let st := forwardRequest st "resources/list"
            let st := forwardRequest st "resources/templates/list"
            if r.listChanged then
              forwardNotification st "notifications/resources/list_changed"
            else st
        | none => st
      let st := match caps.prompts with
        | some p =>
            let st := forwardRequest st "prompts/list"
            if p.listChanged then
              forwardNotification st "notifications/prompts/list_changed"
            else st
        | none => st
      (.ok (), { st with transportStarted := true })

/-! ## Debounced size-change reporting (App.setupSizeChangeNotifications,
examples/subway-map-server/PLAN.md) -/

/-- Events driving the size-change machinery: a resize observation (a
ResizeObserver callback firing, or the initial direct call of
`sendBodySizeChange`), or an animation-frame tick (which runs the pending
requestAnimationFrame callback, if one is scheduled). -/
inductive SizeEvent where
  | observed
  | frame
deriving DecidableEq

/-- One step of `setupSizeChangeNotifications`'s debouncing state machine.
The state is the `scheduled` flag. An observation returns early when a
callback is already scheduled and otherwise schedules one (either way the
flag ends up set and nothing is sent). A frame tick runs the scheduled
callback, if any: the callback clears the flag and sends exactly one
size-change notification. Returns the new flag and the number of
size-change notifications sent during the event. -/
def sizeStep : Bool → SizeEvent → Bool × Nat
  | _, .observed => (true, 0)
  | scheduled, .frame => if scheduled then (false, 1) else (false, 0)

/-- The debouncing state machine run over a sequence of events, with the
per-event notification counts. -/
def sizeRun : Bool → List SizeEvent → Bool × List Nat
  | scheduled, [] => (scheduled, [])
  | scheduled, e :: es =>
      let step := sizeStep scheduled e
      let rest := sizeRun step.1 es
      (rest.1, step.2 :: rest.2)

/-! ## Theorems -/

/-- Helper: a relay step's posts depend only on the event. -/
theorem relayStep_posts (st : SandboxState) (e : SandboxMessageEvent) :
    (relayStep st e).2 = relayStepPosts e := by
  obtain ⟨src, data⟩ := e
  cases src with
  | parent =>
      by_cases h : isResourceReadyMsg data = true
      · simp only [relayStep, relayStepPosts, h, if_true]
        cases hp : data.getField "params" <;> simp
      · simp only [Bool.not_eq_true] at h
        simp [relayStep, relayStepPosts, h]
  | innerFrame => rfl
  | otherWindow => rfl

/-- Helper: the posts of a whole run are the concatenation of the per-event
posts, independent of the starting state. -/
theorem relayRun_posts (st : SandboxState) (events : List SandboxMessageEvent) :
    (relayRun st events).2 = relayPostsOf events := by
  induction events generalizing st with
  | nil => rfl
  | cons e es ih => simp [relayRun, relayPostsOf, relayStep_posts, ih]

/-- C1: the sandbox proxy is supposed to treat a successful escape self-test
(the dialog on the top-level window appearing without a SecurityError) as
fatal and abort initialization. In sandbox.ts the deliberately thrown
escape-detected Error is swallowed by the same catch clause that ignores the
expected SecurityError, so setup runs to completion anyway: with isolation
broken (the alert dialog was shown), the proxy still creates the nested
iframe, installs the relay listener and posts proxy-ready. -/
theorem sandbox_selftest_escape_not_fatal :
    sandboxSetup { framed := true, referrer := "http://localhost:5173/",
                   alertRaisesSecurityError := false } =
      Except.ok { innerCreated := true
                  innerSandboxAttr := "allow-scripts allow-same-origin allow-forms"
                  relayListenerInstalled := true
                  proxyReadyPosted := true
                  alertDialogShown := true } := by
  rfl

/-- C4: registering a handler for a method not covered by the endpoint's
declared capabilities is supposed to throw synchronously at registration
time. On the Host endpoint it never does: `assertRequestHandlerCapability`
and `assertNotificationCapability` are TODO no-ops, so with an empty host
capability set both request-handler and notification-handler registration
succeed for methods no capability covers. -/
theorem bridge_registration_never_throws :
    AppBridge.assertRequestHandlerCapability [] "tools/call" = .ok () ∧
    bridgeSetRequestHandler [] [] "tools/call" = .ok ["tools/call"] ∧
    AppBridge.assertNotificationCapability [] "ui/notifications/size-change" = .ok () ∧
    bridgeSetNotificationHandler [] "ui/notifications/tool-input" =
      ["ui/notifications/tool-input"] :=
  ⟨rfl, rfl, rfl, rfl⟩

/-- C9: when the MCP client reports no server capabilities,
`AppBridge.connect` throws before starting the transport, registering no
forwarding handlers: the bridge state is returned unchanged. -/
theorem bridge_connect_requires_server_capabilities (st : BridgeState) :
    bridgeConnect none st =
      (.error "Client server capabilities not available", st) :=
  rfl

/-- Helper: encoding an initialize result and validating it against the
result schema round-trips. -/
theorem parseInitializeResult_encode (r : McpUiInitializeResult) :
    parseInitializeResult (encodeInitializeResult r) = some r := by
  rfl

/-- C2: for every ui/initialize request, the negotiated protocol version in
the Host's result is the Guest's requested version when that version is in
the allow-list of supported versions, and the Host's latest known version
otherwise; in particular, a Guest requesting an unsupported version against
the Host's allow-list (exactly the latest version) is answered with the
latest version and its connect() still resolves. -/
theorem initialize_version_negotiation (hostCaps : List (String × Json))
    (hostInfo : Implementation) (request : McpUiInitializeParams) :
    (SUPPORTED_PROTOCOL_VERSIONS.contains request.protocolVersion = true →
      (AppBridge.oninitialize hostCaps hostInfo request).protocolVersion =
        request.protocolVersion) ∧
    (SUPPORTED_PROTOCOL_VERSIONS.contains request.protocolVersion = false →
      (AppBridge.oninitialize hostCaps hostInfo request).protocolVersion =
        LATEST_PROTOCOL_VERSION ∧
      (appConnect (.response (encodeInitializeResult
          (AppBridge.oninitialize hostCaps hostInfo request)))).resolved = true) := by
  constructor
  · intro h
    simp at h
    simp [AppBridge.oninitialize, h]
  · intro h
    simp at h
    refine ⟨by simp [AppBridge.oninitialize, h], ?_⟩
    simp [appConnect, parseInitializeResult_encode]

/-- C2 witness: a Guest requesting the unsupported version v999 against the
Host's allow-list is answered with the latest version, and its connect()
resolves on that response. -/
theorem initialize_version_negotiation_witness :
    (AppBridge.oninitialize [] ⟨"H", "1"⟩
        { protocolVersion := "v999", appCapabilities := [],
          appInfo := ⟨"G", "1"⟩ }).protocolVersion = LATEST_PROTOCOL_VERSION ∧
    (appConnect (.response (encodeInitializeResult
        (AppBridge.oninitialize [] ⟨"H", "1"⟩
          { protocolVersion := "v999", appCapabilities := [],
            appInfo := ⟨"G", "1"⟩ })))).resolved = true :=
  (initialize_version_negotiation [] ⟨"H", "1"⟩
      { protocolVersion := "v999", appCapabilities := [],
        appInfo := ⟨"G", "1"⟩ }).2 (by decide)

/-- C3: whenever the initialize exchange fails — a transport or protocol
failure, or a Host response that does not validate against the result schema
(in particular one missing hostCapabilities) — connect() rejects, the Guest
closes its own transport exactly once, and it sent exactly one initialize
request (no retry). -/
theorem connect_failure_closes_once (outcome : InitializeOutcome)
    (h : ∀ j, outcome = .response j → parseInitializeResult j = none) :
    (appConnect outcome).resolved = false ∧
    (appConnect outcome).closeCalls = 1 ∧
    (appConnect outcome).initializeRequestsSent = 1 := by
  cases outcome with
  | failure e => exact ⟨rfl, rfl, rfl⟩
  | response j => simp [appConnect, h j rfl]

/-- C3 witness: a Host response carrying a protocol version and host identity
but no hostCapabilities field makes connect() reject with the transport
closed exactly once. -/
theorem connect_failure_closes_once_witness :
    (appConnect (.response (Json.obj
        [("protocolVersion", Json.str "v1"),
         ("hostInfo", Json.obj
            [("name", Json.str "H"), ("version", Json.str "1")])]))).resolved = false ∧
    (appConnect (.response (Json.obj
        [("protocolVersion", Json.str "v1"),
         ("hostInfo", Json.obj
            [("name", Json.str "H"), ("version", Json.str "1")])]))).closeCalls = 1 ∧
    (appConnect (.response (Json.obj
        [("protocolVersion", Json.str "v1"),
         ("hostInfo", Json.obj
            [("name", Json.str "H"), ("version", Json.str "1")])]))).initializeRequestsSent = 1 :=
  connect_failure_closes_once _ (fun j hj => by cases hj; rfl)

/-- C5: over any sequence of message events and from any proxy state, the
sandbox proxy relays to the nested frame exactly the data of the parent's
non-control messages, verbatim and in order, and relays to the parent exactly
the data of the nested frame's messages, verbatim and in order; events from
any other source window are never relayed. -/
theorem relay_verbatim_per_direction (st : SandboxState)
    (events : List SandboxMessageEvent) :
    postsToInner (relayRun st events).2 =
      (events.filter (fun e =>
        match e.src with
        | .parent => !isResourceReadyMsg e.data
        | .innerFrame => false
        | .otherWindow => false)).map (fun e => e.data) ∧
    postsToParent (relayRun st events).2 =
      (events.filter (fun e =>
        match e.src with
        | .parent => false
        | .innerFrame => true
        | .otherWindow => false)).map (fun e => e.data) := by
  rw [relayRun_posts]
  induction events with
  | nil => exact ⟨rfl, rfl⟩
  | cons e es ih =>
      obtain ⟨src, data⟩ := e
      obtain ⟨ih1, ih2⟩ := ih
      cases src with
      | parent =>
          by_cases h : isResourceReadyMsg data = true
          · simpa [relayPostsOf, relayStepPosts, postsToInner, postsToParent,
              List.filter_cons, h] using ⟨ih1, ih2⟩
          · simp only [Bool.not_eq_true] at h
            simpa [relayPostsOf, relayStepPosts, postsToInner, postsToParent,
              List.filter_cons, h] using ⟨ih1, ih2⟩
      | innerFrame =>
          simpa [relayPostsOf, relayStepPosts, postsToInner, postsToParent,
            List.filter_cons] using ⟨ih1, ih2⟩
      | otherWindow =>
          simpa [relayPostsOf, relayStepPosts, postsToInner, postsToParent,
            List.filter_cons] using ⟨ih1, ih2⟩

/-- C6: an inbound value whose source passes the transport's filter is
delivered to onmessage unchanged when it validates as a JSON-RPC message, and
is reported through onerror — never delivered, never thrown — when it does
not. -/
theorem transport_validation_routing {W : Type} [DecidableEq W]
    (eventSource : Option W) (source : Option W) (data : Json)
    (hsrc : ∀ s, eventSource = some s → source = some s) :
    (isJSONRPCMessage data = false →
      handleWindowMessage eventSource source data = .reportedInvalid) ∧
    (isJSONRPCMessage data = true →
      handleWindowMessage eventSource source data = .delivered data) := by
  cases eventSource with
  | none => constructor <;> intro h <;> simp [handleWindowMessage, h]
  | some s =>
      have hs := hsrc s rfl
      constructor <;> intro h <;> simp [handleWindowMessage, hs, h]

/-- C6 witness: with no source filter configured, the bare string junk fails
JSON-RPC validation and is reported through onerror, not delivered. -/
theorem transport_validation_routing_witness :
    isJSONRPCMessage (Json.str "junk") = false ∧
    handleWindowMessage (W := Bool) none none (Json.str "junk") =
      .reportedInvalid :=
  ⟨rfl, (transport_validation_routing none none (Json.str "junk")
    (fun _ hs => Option.noConfusion hs)).1 rfl⟩

/-- C7: a transport constructed with an expected source window drops every
message event whose source differs from it — no delivery and no error report
— whatever the message data is. -/
theorem transport_source_filter_drops {W : Type} [DecidableEq W]
    (expected : W) (source : Option W) (data : Json)
    (h : source ≠ some expected) :
    handleWindowMessage (some expected) source data = .droppedUnknownSource := by
  simp [handleWindowMessage, h]

/-- C7 witness: a transport expecting one window drops a perfectly valid
JSON-RPC notification arriving from a different window. -/
theorem transport_source_filter_drops_witness :
    (some false ≠ some true) ∧
    isJSONRPCMessage (Json.obj
      [("jsonrpc", Json.str "2.0"), ("method", Json.str "ping")]) = true ∧
    handleWindowMessage (W := Bool) (some true) (some false)
        (Json.obj [("jsonrpc", Json.str "2.0"), ("method", Json.str "ping")]) =
      .droppedUnknownSource :=
  ⟨by decide, rfl,
    transport_source_filter_drops true (some false) _ (by decide)⟩

/-- C8: along any event sequence and from any debouncing state, every event
produces at most one size-change notification, and resize observations
themselves send none — notifications are emitted only by the
animation-frame callback, so at most one size-change is sent per
animation-frame tick no matter how many observations fire within it. -/
theorem size_change_once_per_frame (scheduled : Bool) (events : List SizeEvent) :
    ((events.zip (sizeRun scheduled events).2).all (fun p =>
      decide (p.2 ≤ 1) &&
        (match p.1 with
         | .frame => true
         | .observed => decide (p.2 = 0)))) = true := by
  induction events generalizing scheduled with
  | nil => rfl
  | cons e es ih =>
      cases e with
      | observed => simpa [sizeRun, sizeStep] using ih true
      | frame =>
          cases scheduled <;>
            simpa [sizeRun, sizeStep] using ih false

/-- C10: every outbound message of the PostMessageTransport, every message
the sandbox proxy relays in either direction, and the proxy-ready signal
itself are posted with the wildcard target origin. -/
theorem all_posts_use_wildcard_origin :
    (∀ (W : Type) (w : W) (m : Json),
      (PostMessageTransport.send w m).targetOrigin = "*") ∧
    (∀ (st : SandboxState) (events : List SandboxMessageEvent),
      ((relayRun st events).2.all (fun p => p.targetOrigin == "*")) = true) ∧
    proxyReadyPost.targetOrigin = "*" := by
  refine ⟨fun _ _ _ => rfl, fun st events => ?_, rfl⟩
  rw [relayRun_posts]
  induction events with
  | nil => rfl
  | cons e es ih =>
      obtain ⟨src, data⟩ := e
      cases src with
      | parent =>
          by_cases h : isResourceReadyMsg data = true
          · simpa [relayPostsOf, relayStepPosts, h] using ih
          · simp only [Bool.not_eq_true] at h
            simpa [relayPostsOf, relayStepPosts, h] using ih
      | innerFrame => simpa [relayPostsOf, relayStepPosts] using ih
      | otherWindow => simpa [relayPostsOf, relayStepPosts] using ih

end ExtApps
